import Mathlib

/-!
Verification development for the VR panorama tour viewer.

The definitions below are a shallow embedding of the TypeScript sources:
`src/panoramaPreloader.ts` (main-thread preload manager),
`src/panoramaPreloader.worker.ts` (the web-worker fetch loop), and
`src/main.ts` (the `VRPanoramaViewer` class: panorama loading, navigation,
hotspots, neighbour prefetch, and the VR session handlers).

Modelling conventions:
- JavaScript `Map<string, V>` is modelled as an association list with
  `mapGet` / `mapSet` / `mapHas` mirroring `get` / `set` / `has`.
- JavaScript falsiness of strings (`""` is falsy) is modelled explicitly
  where the source relies on it (`preloaded?.objectUrl || null`).
- `URL.createObjectURL` is a browser API (not repository code); per its
  contract it returns a fresh `blob:` URL, modelled by a counter producing
  `"blob:" ++ n` (always a non-empty string).
- `ArrayBuffer` payloads are modelled as `List Nat` (their bytes); no claim
  depends on the byte contents.
- Asynchronous interleaving of the worker's `preloadImages` runs is modelled
  by a small-step relation `WStep` whose suspension points are exactly the
  `await`s of the source; a run of the function in isolation is the
  sequential recursion `preloadImagesSeq`.
-/

namespace VRTour

/-- Association-list model of a JavaScript `Map`: lookup (`Map.get`). -/
def mapGet {α : Type} (m : List (String × α)) (k : String) : Option α :=
  match m with
  | [] => none
  | (k', v) :: rest => if k' = k then some v else mapGet rest k

/-- Association-list model of `Map.set`: replace in place or append. -/
def mapSet {α : Type} (m : List (String × α)) (k : String) (v : α) :
    List (String × α) :=
  match m with
  | [] => [(k, v)]
  | (k', v') :: rest =>
      if k' = k then (k, v) :: rest else (k', v') :: mapSet rest k v

/-- Association-list model of `Map.has`. -/
def mapHas {α : Type} (m : List (String × α)) (k : String) : Bool :=
  (mapGet m k).isSome

/-- One entry of the preloader's `preloadedImages` map
(interface `PreloadedImage` in `panoramaPreloader.ts`). -/
structure PreloadedImage where
  url : String
  data : List Nat
  objectUrl : Option String
deriving DecidableEq

/-- The `type` discriminant of a worker response
(`PreloadResponse` in `panoramaPreloader.worker.ts`). -/
inductive PreloadResponseType
  | PRELOAD_COMPLETE
  | PRELOAD_PROGRESS
  | PRELOAD_ERROR
deriving DecidableEq

/-- A worker-to-main-thread message (`PreloadResponse`). -/
structure PreloadResponse where
  type : PreloadResponseType
  imageUrl : Option String
  imageData : Option (List Nat)
  error : Option String
  progress : Option Nat
  total : Option Nat
deriving DecidableEq

/-- State of the main-thread `PanoramaPreloader`: its `preloadedImages` map,
plus a counter for fresh `blob:` object URLs (`URL.createObjectURL`). -/
structure PanoramaPreloader where
  preloadedImages : List (String × PreloadedImage)
  nextBlobId : Nat
deriving DecidableEq

/-- A freshly constructed `PanoramaPreloader`: empty map. -/
def initPreloader : PanoramaPreloader := { preloadedImages := [], nextBlobId := 0 }

/-- `handleWorkerMessage` (`panoramaPreloader.ts` lines 27-62): on
`PRELOAD_PROGRESS` with a truthy `imageUrl` and an `imageData` present,
create an object URL and insert the entry; all other messages leave the
map untouched (they only log or fire callbacks). -/
def handleWorkerMessage (p : PanoramaPreloader) (m : PreloadResponse) :
    PanoramaPreloader :=
  match m.type with
  | PreloadResponseType.PRELOAD_PROGRESS =>
      match m.imageUrl, m.imageData with
      | some u, some d =>
          if u = "" then p
          else
            let objectUrl := "blob:" ++ Nat.repr p.nextBlobId
            { preloadedImages :=
                mapSet p.preloadedImages u
                  { url := u, data := d, objectUrl := some objectUrl },
              nextBlobId := p.nextBlobId + 1 }
      | _, _ => p
  | _ => p

/-- `getPreloadedImage` (`panoramaPreloader.ts` lines 86-89):
`preloaded?.objectUrl || null`, with JavaScript falsiness — a missing entry,
a missing `objectUrl`, or an empty-string `objectUrl` all yield `null`. -/
def getPreloadedImage (p : PanoramaPreloader) (url : String) : Option String :=
  match mapGet p.preloadedImages url with
  | none => none
  | some img =>
      match img.objectUrl with
      | none => none
      | some s => if s = "" then none else some s

/-- `isImagePreloaded` (`panoramaPreloader.ts` lines 91-93). -/
def isImagePreloaded (p : PanoramaPreloader) (url : String) : Bool :=
  mapHas p.preloadedImages url

/-!
The worker's fetch loop (`preloadImages` in `panoramaPreloader.worker.ts`,
also inlined verbatim in the blob-worker variant of the manager).

`preloadImagesSeq` is the function run in isolation (a single
`PRELOAD_IMAGES` message, no other handler interleaved): for each URL in
order, skip it when `imageCache.has(fullUrl)`, otherwise fetch it (the
fetch is recorded in the returned log), and on success `imageCache.set` the
result before the next URL is examined.  `fetch` is the network, an
external input: `none` models a rejected fetch / non-ok response (the
`catch` branch: nothing is cached, the loop continues).
-/

/-- Sequential run of the worker's `preloadImages` over one URL list.
Returns the final `imageCache` together with the ordered log of URLs for
which an underlying fetch was started. -/
def preloadImagesSeq (fetch : String → Option (List Nat)) (basePath : String) :
    List (String × List Nat) → List String → List (String × List Nat) × List String
  | cache, [] => (cache, [])
  | cache, u :: rest =>
      let fullUrl := basePath ++ u
      if mapHas cache fullUrl then
        preloadImagesSeq fetch basePath cache rest
      else
        let cache' :=
          match fetch fullUrl with
          | some buf => mapSet cache fullUrl buf
          | none => cache
        let r := preloadImagesSeq fetch basePath cache' rest
        (r.1, fullUrl :: r.2)

/-- One in-flight activation of the worker's `preloadImages` (one received
`PRELOAD_IMAGES` message): the base path, the URLs not yet examined, and
the URL whose `fetch` is currently awaited, if any. -/
structure WorkerTask where
  basePath : String
  remaining : List String
  pending : Option String
deriving DecidableEq

/-- The worker's shared state: the module-level `imageCache`, the in-flight
activations of `preloadImages` (the worker's event loop interleaves them at
`await` points), and the ordered log of URLs for which a fetch was started. -/
structure WorkerState where
  imageCache : List (String × List Nat)
  tasks : List WorkerTask
  fetchLog : List String
deriving DecidableEq

/-- Cooperative small-step semantics of the worker.  Each constructor is one
atomic run-to-suspension segment of `preloadImages`
(`panoramaPreloader.worker.ts` lines 28-92):
`skip` is the cache-hit branch, `startFetch` the cache-miss check followed by
starting `fetch` (suspending there), `resumeOk` the fetch resolving and
`imageCache.set` running, `resumeErr` the `catch` branch, `finish` a task
whose loop is done, and `spawn` a newly received `PRELOAD_IMAGES` message. -/
inductive WStep : WorkerState → WorkerState → Prop
  | skip (s : WorkerState) (pre post : List WorkerTask) (bp u : String)
      (rest : List String) :
      s.tasks = pre ++ { basePath := bp, remaining := u :: rest, pending := none } :: post →
      mapHas s.imageCache (bp ++ u) = true →
      WStep s { imageCache := s.imageCache,
                tasks := pre ++ { basePath := bp, remaining := rest, pending := none } :: post,
                fetchLog := s.fetchLog }
  | startFetch (s : WorkerState) (pre post : List WorkerTask) (bp u : String)
      (rest : List String) :
      s.tasks = pre ++ { basePath := bp, remaining := u :: rest, pending := none } :: post →
      mapHas s.imageCache (bp ++ u) = false →
      WStep s { imageCache := s.imageCache,
                tasks := pre ++ { basePath := bp, remaining := rest, pending := some (bp ++ u) } :: post,
                fetchLog := s.fetchLog ++ [bp ++ u] }
  | resumeOk (s : WorkerState) (pre post : List WorkerTask) (bp fullUrl : String)
      (rest : List String) (buf : List Nat) :
      s.tasks = pre ++ { basePath := bp, remaining := rest, pending := some fullUrl } :: post →
      WStep s { imageCache := mapSet s.imageCache fullUrl buf,
                tasks := pre ++ { basePath := bp, remaining := rest, pending := none } :: post,
                fetchLog := s.fetchLog }
  | resumeErr (s : WorkerState) (pre post : List WorkerTask) (bp fullUrl : String)
      (rest : List String) :
      s.tasks = pre ++ { basePath := bp, remaining := rest, pending := some fullUrl } :: post →
      WStep s { imageCache := s.imageCache,
                tasks := pre ++ { basePath := bp, remaining := rest, pending := none } :: post,
                fetchLog := s.fetchLog }
  | finish (s : WorkerState) (pre post : List WorkerTask) (bp : String) :
      s.tasks = pre ++ { basePath := bp, remaining := [], pending := none } :: post →
      WStep s { imageCache := s.imageCache,
                tasks := pre ++ post,
                fetchLog := s.fetchLog }
  | spawn (s : WorkerState) (bp : String) (urls : List String) :
      WStep s { imageCache := s.imageCache,
                tasks := s.tasks ++ [{ basePath := bp, remaining := urls, pending := none }],
                fetchLog := s.fetchLog }

/-!
String helpers used by `main.ts`.
-/

/-- Character-list core of JavaScript `String.replace(pattern, repl)` with a
string pattern: replace only the first occurrence. -/
def replaceFirstAux (pat rep : List Char) : List Char → List Char
  | [] => []
  | c :: cs =>
      if pat.isPrefixOf (c :: cs) then rep ++ (c :: cs).drop pat.length
      else c :: replaceFirstAux pat rep cs

/-- JavaScript `s.replace(pat, rep)` for string patterns (first occurrence
only), as used for `panoramaInfo.image.replace('.jpg', imageSuffix)`. -/
def replaceFirst (s pat rep : String) : String :=
  String.mk (replaceFirstAux pat.data rep.data s.data)

/-- Boolean string-prefix test (on the underlying character lists). -/
def strIsPrefix (p s : String) : Bool :=
  p.data.isPrefixOf s.data

/-!
The viewer (`main.ts`, class `VRPanoramaViewer`): node graph data, hotspots,
panorama loading and navigation.  Numeric link fields (`yaw`, `pitch`) are
carried as integers; no claim computes with them.  Rendering-engine calls
(material flags, photo-dome construction, UI text) are modelled by the data
they leave behind in the viewer's fields; `new PhotoDome(...)` may throw
(the body's `try`/`catch`), which is modelled by the external input
`domeOk : Bool` of `loadPanoramaRun`.
-/

/-- `PanoramaLink` (`main.ts` lines 33-38). -/
structure PanoramaLink where
  «to» : String
  yaw : Int
  pitch : Int
  label : String
deriving DecidableEq

/-- `PanoramaData` (`main.ts` lines 40-46). -/
structure PanoramaData where
  name : String
  image : String
  links : List PanoramaLink
  mapX : Int
  mapY : Int
  floor : String
deriving DecidableEq

/-- A scene object pushed onto `this.hotspots` by `createHotspots`: each link
produces a hotspot sphere and a billboard label plane (both are pushed). -/
inductive SceneObj
  | hotspotObj (index : Nat) (link : PanoramaLink)
  | labelObj (index : Nat) (label : String)
deriving DecidableEq

/-- `createHotspots` (`main.ts` lines 379-484) together with
`createHotspotLabel`: for every link, in order, a hotspot sphere is created
and pushed, then its label plane is pushed.  No link is skipped — there is
no existence check on `link.to`. -/
def createHotspots (links : List PanoramaLink) : List SceneObj :=
  (links.enum).flatMap fun iLink =>
    [SceneObj.hotspotObj iLink.1 iLink.2, SceneObj.labelObj iLink.1 iLink.2.label]

/-- The current `PhotoDome`: its mesh name, the URL the texture was created
from, and the `resolution` option (128 in VR, 64 otherwise). -/
structure PhotoDomeModel where
  name : String
  sourceUrl : String
  resolution : Nat
deriving DecidableEq

/-- The fields of `VRPanoramaViewer` the claims are about, plus the
environment inputs the methods read (`import.meta.env.BASE_URL`,
`window.location.origin`, the user-agent mobile test). -/
structure ViewerState where
  panoramaData : List (String × PanoramaData)
  currentPanorama : String
  currentPhotoDome : Option PhotoDomeModel
  hotspots : List SceneObj
  preloader : PanoramaPreloader
  preloadRequests : List (List String × String)
  isVRActive : Bool
  isMobile : Bool
  basePath : String
  origin : String
deriving DecidableEq

/-- Image-suffix selection (`main.ts` lines 210-218): `_mobile.jpg` on a
mobile browser outside VR, `_hq.jpg` in VR, `_std.jpg` otherwise. -/
def imageSuffix (isMobile isVR : Bool) : String :=
  if isMobile && !isVR then "_mobile.jpg"
  else if isVR then "_hq.jpg"
  else "_std.jpg"

/-- The image path `loadPanorama` queries (`main.ts` lines 220-221):
`BASE_URL ++ "panos/optimized_natural/" ++ image.replace(".jpg", suffix)`.
Note: no `window.location.origin` prefix. -/
def loadImagePath (basePath image suffix : String) : String :=
  basePath ++ "panos/optimized_natural/" ++ replaceFirst image ".jpg" suffix

/-- `clearScene` (`main.ts` lines 367-377): dispose the dome and every
hotspot. -/
def clearScene (s : ViewerState) : ViewerState :=
  { s with currentPhotoDome := none, hotspots := [] }

/-- The URL list built by `preloadConnectedPanoramas` (`main.ts` lines
310-331): for each link whose target exists in `panoramaData`, push the
`_std.jpg`, `_mobile.jpg`, and unsuffixed `.jpg` URLs, each prefixed with
`window.location.origin` and `BASE_URL`. -/
def connectedImagesStep (dataM : List (String × PanoramaData)) (basePath origin : String)
    (acc : List String) (link : PanoramaLink) : List String :=
  match mapGet dataM link.«to» with
  | some target =>
      let baseImageName := replaceFirst target.image ".jpg" ""
      let imagePath := "panos/optimized_natural/"
      acc ++ [origin ++ basePath ++ imagePath ++ baseImageName ++ "_std.jpg",
              origin ++ basePath ++ imagePath ++ baseImageName ++ "_mobile.jpg",
              origin ++ basePath ++ imagePath ++ baseImageName ++ ".jpg"]
  | none => acc

/-- The complete URL list: fold of `connectedImagesStep` over the links, in
order, starting from the empty array. -/
def connectedImages (dataM : List (String × PanoramaData)) (basePath origin : String)
    (info : PanoramaData) : List String :=
  info.links.foldl (connectedImagesStep dataM basePath origin) []

/-- `preloadConnectedPanoramas` (`main.ts` lines 305-347): compute the
connected-image URL list and, when non-empty, hand it to
`preloader.startPreloading(connectedImages, '')` — modelled as recording the
request.  Nothing is removed from the preloader's map: loads complete
asynchronously in the worker and are only ever *added* later. -/
def preloadConnectedPanoramas (s : ViewerState) (panoramaId : String) : ViewerState :=
  match mapGet s.panoramaData panoramaId with
  | none => s
  | some info =>
      let imgs := connectedImages s.panoramaData s.basePath s.origin info
      if imgs.length > 0 then
        { s with preloadRequests := s.preloadRequests ++ [(imgs, "")] }
      else s

/-- Abstract effects of one `loadPanorama` call, in program order.
`crossfadeEv` is in the vocabulary so the crossfade claims can be stated;
the body of `loadPanorama` contains no animation, so no run emits it. -/
inductive NavEvent
  | clearSceneEv
  | createDomeEv (sourceUrl : String)
  | crossfadeEv
  | setCurrentEv (panoramaId : String)
  | createHotspotsEv (count : Nat)
  | preloadConnectedEv (urls : List String)
deriving DecidableEq

/-- `loadPanorama` (`main.ts` lines 199-294), with its ordered effect trace.
If the id is absent from `panoramaData`, log and return — state untouched.
Otherwise: `clearScene`; build the image path; query the preloader
(`getPreloadedImage`) and fall back to the network path; `new PhotoDome`
(`domeOk = false` models the constructor throwing, landing in the `catch`
which only logs); on success set `currentPanorama`, create the hotspots and
request the neighbour preload.  The body is synchronous: it contains no
`await` and no animation. -/
def loadPanoramaRun (s : ViewerState) (panoramaId : String) (domeOk : Bool) :
    ViewerState × List NavEvent :=
  match mapGet s.panoramaData panoramaId with
  | none => (s, [])
  | some info =>
      let s1 := clearScene s
      let suffix := imageSuffix s.isMobile s.isVRActive
      let imagePath := loadImagePath s.basePath info.image suffix
      let preloadedUrl := getPreloadedImage s.preloader imagePath
      let finalImagePath := preloadedUrl.getD imagePath
      if domeOk then
        let s2 := { s1 with
          currentPhotoDome := some
            { name := "dome_" ++ panoramaId,
              sourceUrl := finalImagePath,
              resolution := if s.isVRActive then 128 else 64 },
          currentPanorama := panoramaId,
          hotspots := createHotspots info.links }
        let s3 := preloadConnectedPanoramas s2 panoramaId
        (s3, [NavEvent.clearSceneEv, NavEvent.createDomeEv finalImagePath,
              NavEvent.setCurrentEv panoramaId,
              NavEvent.createHotspotsEv info.links.length,
              NavEvent.preloadConnectedEv
                (connectedImages s.panoramaData s.basePath s.origin info)])
      else
        (s1, [NavEvent.clearSceneEv])

/-- The state part of `loadPanorama`. -/
def loadPanorama (s : ViewerState) (panoramaId : String) (domeOk : Bool) :
    ViewerState :=
  (loadPanoramaRun s panoramaId domeOk).1

/-- `navigateToPanorama` (`main.ts` lines 522-524): the whole body is
`await this.loadPanorama(targetPanorama)` — no same-target check, no
transition lock, no rejection path. -/
def navigateToPanorama (s : ViewerState) (targetPanorama : String) (domeOk : Bool) :
    ViewerState :=
  loadPanorama s targetPanorama domeOk

/-!
Session-lifecycle handlers (`main.ts`): `onEnterVR` (lines 868-965) with the
VR caption setup (`setupVRCaption`, lines 1577-1625) and floorplan setup
(`setupFloorplanUI`, lines 1082-1155).  The state tracks what matters for
idempotence: the desktop-UI visibility, and how many caption / floorplan
scene objects and render observers are alive.  Babylon scene nodes stay
alive until explicitly disposed, and `scene.registerBeforeRender` callbacks
stay registered until explicitly unregistered; overwriting the viewer's
tracking field does not dispose or unregister the previous one.
-/

/-- The VR-session-relevant state: desktop UI visibility, and the counts of
caption planes / caption render observers / floorplan planes / floorplan
render observers alive in the scene, plus whether the viewer currently
tracks a floorplan observer in `this.floorplanUpdateObserver`. -/
structure VRUIState where
  isVRActive : Bool
  desktopUIVisible : Bool
  desktopUIAlpha : Nat
  captionPlanes : Nat
  captionObservers : Nat
  floorplanPlanes : Nat
  floorplanObservers : Nat
  floorplanObserverTracked : Bool
deriving DecidableEq

/-- `setupVRCaption` (`main.ts` lines 1577-1625): if not in VR, return.
Otherwise create a *new* caption container, plane and texture, and register
a *new* before-render observer.  The method contains no dispose call: the
previously created caption plane (if any) stays in the scene and the
previously registered observer stays registered — only the tracking fields
are overwritten. -/
def setupVRCaption (s : VRUIState) : VRUIState :=
  if !s.isVRActive then s
  else
    { s with
      captionPlanes := s.captionPlanes + 1,
      captionObservers := s.captionObservers + 1 }

/-- `setupFloorplanUpdateObserver` (`main.ts` lines 1540-1555): unregister
the *tracked* observer if one is tracked, then register and track a new
one. -/
def setupFloorplanUpdateObserver (s : VRUIState) : VRUIState :=
  let s1 :=
    if s.floorplanObserverTracked then
      { s with floorplanObservers := s.floorplanObservers - 1 }
    else s
  { s1 with
    floorplanObservers := s1.floorplanObservers + 1,
    floorplanObserverTracked := true }

/-- `setupFloorplanUI` (`main.ts` lines 1082-1155): if not in VR, return.
Otherwise create a *new* floorplan container and plane (no dispose of a
previous one) and run `setupFloorplanUpdateObserver`. -/
def setupFloorplanUI (s : VRUIState) : VRUIState :=
  if !s.isVRActive then s
  else
    setupFloorplanUpdateObserver { s with floorplanPlanes := s.floorplanPlanes + 1 }

/-- `onEnterVR` (`main.ts` lines 868-965): hide the desktop UI (visibility
false, alpha 0, pointer blocking off), run `setupVRCaption`, refresh the
photo-dome material, run `setupFloorplanUI`, render once. -/
def onEnterVR (s : VRUIState) : VRUIState :=
  let s1 := { s with desktopUIVisible := false, desktopUIAlpha := 0 }
  let s2 := setupVRCaption s1
  setupFloorplanUI s2

/-!
Concrete fixtures: small panorama databases and viewer states used to
evaluate the claims at explicit inputs.
-/

/-- A successful worker progress message for URL `u` (the worker posts
`imageUrl` and `imageData` together on a successful fetch). -/
def progressMsg (u : String) : PreloadResponse :=
  { type := PreloadResponseType.PRELOAD_PROGRESS, imageUrl := some u,
    imageData := some [0], error := none, progress := some 1, total := some 1 }

/-- Nine successful progress messages with distinct URLs. -/
def nineMsgs : List PreloadResponse :=
  [progressMsg "a1", progressMsg "a2", progressMsg "a3", progressMsg "a4",
   progressMsg "a5", progressMsg "a6", progressMsg "a7", progressMsg "a8",
   progressMsg "a9"]

/-- Three-node graph `A -> B -> C`. -/
def dataABC : List (String × PanoramaData) :=
  [("A", { name := "A", image := "a.jpg",
           links := [{ «to» := "B", yaw := 0, pitch := 0, label := "toB" }],
           mapX := 0, mapY := 0, floor := "EG" }),
   ("B", { name := "B", image := "b.jpg",
           links := [{ «to» := "C", yaw := 0, pitch := 0, label := "toC" }],
           mapX := 0, mapY := 0, floor := "EG" }),
   ("C", { name := "C", image := "c.jpg", links := [],
           mapX := 0, mapY := 0, floor := "EG" })]

/-- Viewer at node `A` of `dataABC`, desktop browser. -/
def viewerA : ViewerState :=
  { panoramaData := dataABC, currentPanorama := "A",
    currentPhotoDome := some { name := "dome_A", sourceUrl := "pa", resolution := 64 },
    hotspots := [], preloader := initPreloader, preloadRequests := [],
    isVRActive := false, isMobile := false, basePath := "/",
    origin := "https://ex" }

/-- Viewer at node `B` of `dataABC` whose preloader holds an entry for key
`zzz` — a resident key that is neither the current node nor a neighbour. -/
def viewerB : ViewerState :=
  { panoramaData := dataABC, currentPanorama := "B",
    currentPhotoDome := some { name := "dome_B", sourceUrl := "pb", resolution := 64 },
    hotspots := [], preloader := handleWorkerMessage initPreloader (progressMsg "zzz"),
    preloadRequests := [], isVRActive := false, isMobile := false,
    basePath := "/", origin := "https://ex" }

/-- Graph for the key-collision example: one node `N1` with image
`img.jpg`, reachable from a node whose own image name embeds the
`panos/optimized_natural/` path segment. -/
def dataCollide : List (String × PanoramaData) :=
  [("N1", { name := "n1", image := "img.jpg", links := [],
            mapX := 0, mapY := 0, floor := "EG" })]

/-- The source node of the collision example: a single link to `N1`. -/
def infoCollide : PanoramaData :=
  { name := "a", image := "x/panos/optimized_natural/img.jpg",
    links := [{ «to» := "N1", yaw := 0, pitch := 0, label := "l" }],
    mapX := 0, mapY := 0, floor := "EG" }

/-- Worker state with two just-arrived `PRELOAD_IMAGES` activations that
both want `u.jpg`, neither started yet. -/
def wsBoth : WorkerState :=
  { imageCache := [],
    tasks := [{ basePath := "", remaining := ["u.jpg"], pending := none },
              { basePath := "", remaining := ["u.jpg"], pending := none }],
    fetchLog := [] }

/-- `wsBoth` after the first activation reached its `fetch` (suspended). -/
def wsOne : WorkerState :=
  { imageCache := [],
    tasks := [{ basePath := "", remaining := [], pending := some "u.jpg" },
              { basePath := "", remaining := ["u.jpg"], pending := none }],
    fetchLog := ["u.jpg"] }

/-- `wsOne` after the second activation also reached its `fetch`: two
in-flight loads for the same key, two fetches started. -/
def wsTwo : WorkerState :=
  { imageCache := [],
    tasks := [{ basePath := "", remaining := [], pending := some "u.jpg" },
              { basePath := "", remaining := [], pending := some "u.jpg" }],
    fetchLog := ["u.jpg", "u.jpg"] }

/-- A network that always succeeds, for witnesses. -/
def fetchOk : String → Option (List Nat) := fun _ => some [0]

/-- VR-session state before `onEnterVR` runs: active session, desktop UI
visible, no caption or floorplan objects yet. -/
def vrFresh : VRUIState :=
  { isVRActive := true, desktopUIVisible := true, desktopUIAlpha := 1,
    captionPlanes := 0, captionObservers := 0, floorplanPlanes := 0,
    floorplanObservers := 0, floorplanObserverTracked := false }

/-- A preloader holding one entry, for witnesses. -/
def oneEntryPreloader : PanoramaPreloader :=
  handleWorkerMessage initPreloader (progressMsg "k1")

/-- The node-B record of `dataABC`, for witnesses. -/
def infoB : PanoramaData :=
  { name := "B", image := "b.jpg",
    links := [{ «to» := "C", yaw := 0, pitch := 0, label := "toC" }],
    mapX := 0, mapY := 0, floor := "EG" }

/-- Well-formedness of the preloader map: every resident entry carries a
non-empty object URL (what `handleWorkerMessage` always stores). -/
def PreloaderWellFormed (p : PanoramaPreloader) : Prop :=
  ∀ k img, mapGet p.preloadedImages k = some img →
    ∃ s, img.objectUrl = some s ∧ s ≠ ""

/-!
Shared lemmas about the map model, strings, the preloader, the worker loop
and the viewer.
-/

theorem mapGet_mapSet {α : Type} (m : List (String × α)) (k k' : String) (v : α) :
    mapGet (mapSet m k v) k' = if k = k' then some v else mapGet m k' := by
  induction m with
  | nil => simp [mapGet, mapSet]
  | cons kv rest ih =>
      obtain ⟨k0, v0⟩ := kv
      by_cases h0 : k0 = k
      · subst h0
        by_cases h1 : k0 = k' <;> simp [mapSet, mapGet, h1]
      · by_cases h1 : k0 = k'
        · subst h1
          have : ¬ (k = k0) := fun h => h0 h.symm
          simp [mapSet, mapGet, h0, this]
        · simp [mapSet, mapGet, h0, h1, ih]

theorem mapHas_mapSet_self {α : Type} (m : List (String × α)) (k : String) (v : α) :
    mapHas (mapSet m k v) k = true := by
  simp [mapHas, mapGet_mapSet]

theorem mapHas_mapSet_of {α : Type} (m : List (String × α)) (k u : String) (v : α)
    (h : mapHas m u = true) : mapHas (mapSet m k v) u = true := by
  by_cases hk : k = u <;> simp [mapHas, mapGet_mapSet, hk]
  · simpa [mapHas] using h

theorem isPrefixOf_append_self (l t : List Char) : l.isPrefixOf (l ++ t) = true := by
  induction l with
  | nil => simp [List.isPrefixOf]
  | cons a as ih => simp [List.isPrefixOf, ih]

theorem strIsPrefix_append4 (p a b c d : String) :
    strIsPrefix p (p ++ a ++ b ++ c ++ d) = true := by
  unfold strIsPrefix
  rw [String.data_append, String.data_append, String.data_append, String.data_append]
  rw [List.append_assoc, List.append_assoc, List.append_assoc]
  exact isPrefixOf_append_self _ _

theorem blob_url_ne_empty (x : String) : "blob:" ++ x ≠ "" := by
  intro h
  have h2 : ("blob:" ++ x).data = ("" : String).data := by rw [h]
  rw [String.data_append] at h2
  simp at h2

theorem handleWorkerMessage_wellFormed (p : PanoramaPreloader) (m : PreloadResponse)
    (hp : PreloaderWellFormed p) : PreloaderWellFormed (handleWorkerMessage p m) := by
  unfold handleWorkerMessage
  rcases m with ⟨ty, iu, idat, er, pr, tot⟩
  cases ty <;> try exact hp
  rcases iu with _ | u
  · exact hp
  rcases idat with _ | d
  · exact hp
  dsimp
  by_cases hu : u = ""
  · simp [hu]; exact hp
  · simp only [hu, if_false]
    intro k img hk
    rw [mapGet_mapSet] at hk
    by_cases hku : u = k
    · rw [if_pos hku] at hk
      cases hk
      exact ⟨"blob:" ++ Nat.repr p.nextBlobId, rfl, blob_url_ne_empty _⟩
    · rw [if_neg hku] at hk
      exact hp k img hk

theorem initPreloader_wellFormed : PreloaderWellFormed initPreloader := by
  intro k img hk
  simp [initPreloader, mapGet] at hk

theorem foldl_handleWorkerMessage_wellFormed (msgs : List PreloadResponse)
    (p : PanoramaPreloader) (hp : PreloaderWellFormed p) :
    PreloaderWellFormed (msgs.foldl handleWorkerMessage p) := by
  induction msgs generalizing p with
  | nil => exact hp
  | cons m rest ih => exact ih _ (handleWorkerMessage_wellFormed p m hp)

theorem getPreloadedImage_isSome_of_wellFormed (p : PanoramaPreloader)
    (hp : PreloaderWellFormed p) (u : String) :
    (getPreloadedImage p u ≠ none) ↔ isImagePreloaded p u = true := by
  unfold getPreloadedImage isImagePreloaded mapHas
  cases hg : mapGet p.preloadedImages u with
  | none => simp
  | some img =>
      obtain ⟨s, hs, hne⟩ := hp u img hg
      simp [hs, hne]

theorem preloadConnectedPanoramas_fields (s : ViewerState) (panoramaId : String) :
    (preloadConnectedPanoramas s panoramaId).currentPanorama = s.currentPanorama
    ∧ (preloadConnectedPanoramas s panoramaId).currentPhotoDome = s.currentPhotoDome
    ∧ (preloadConnectedPanoramas s panoramaId).preloader = s.preloader
    ∧ (preloadConnectedPanoramas s panoramaId).hotspots = s.hotspots := by
  unfold preloadConnectedPanoramas
  cases mapGet s.panoramaData panoramaId with
  | none => simp
  | some info => dsimp; split <;> simp

theorem connectedImagesStep_mem_mono (dataM : List (String × PanoramaData))
    (bp origin : String) (acc : List String) (link : PanoramaLink) (u : String)
    (h : u ∈ acc) : u ∈ connectedImagesStep dataM bp origin acc link := by
  unfold connectedImagesStep
  cases mapGet dataM link.«to» with
  | none => exact h
  | some target => simp [h]

theorem foldl_connectedImagesStep_mem_mono (dataM : List (String × PanoramaData))
    (bp origin : String) (links : List PanoramaLink) (acc : List String) (u : String)
    (h : u ∈ acc) :
    u ∈ links.foldl (connectedImagesStep dataM bp origin) acc := by
  induction links generalizing acc with
  | nil => exact h
  | cons l rest ih => exact ih _ (connectedImagesStep_mem_mono dataM bp origin acc l u h)

theorem connectedImagesStep_mem (dataM : List (String × PanoramaData))
    (bp origin : String) (acc : List String) (link : PanoramaLink) (target : PanoramaData)
    (h : mapGet dataM link.«to» = some target) :
    (origin ++ bp ++ "panos/optimized_natural/" ++ replaceFirst target.image ".jpg" "" ++ "_std.jpg")
      ∈ connectedImagesStep dataM bp origin acc link
    ∧ (origin ++ bp ++ "panos/optimized_natural/" ++ replaceFirst target.image ".jpg" "" ++ "_mobile.jpg")
      ∈ connectedImagesStep dataM bp origin acc link
    ∧ (origin ++ bp ++ "panos/optimized_natural/" ++ replaceFirst target.image ".jpg" "" ++ ".jpg")
      ∈ connectedImagesStep dataM bp origin acc link := by
  unfold connectedImagesStep
  rw [h]
  simp

theorem connectedImages_mem_of_link (dataM : List (String × PanoramaData))
    (bp origin : String) (info : PanoramaData) (link : PanoramaLink)
    (hl : link ∈ info.links) (target : PanoramaData)
    (h : mapGet dataM link.«to» = some target) :
    (origin ++ bp ++ "panos/optimized_natural/" ++ replaceFirst target.image ".jpg" "" ++ "_std.jpg")
      ∈ connectedImages dataM bp origin info
    ∧ (origin ++ bp ++ "panos/optimized_natural/" ++ replaceFirst target.image ".jpg" "" ++ "_mobile.jpg")
      ∈ connectedImages dataM bp origin info
    ∧ (origin ++ bp ++ "panos/optimized_natural/" ++ replaceFirst target.image ".jpg" "" ++ ".jpg")
      ∈ connectedImages dataM bp origin info := by
  unfold connectedImages
  have main : ∀ (links : List PanoramaLink) (acc : List String), link ∈ links →
      (origin ++ bp ++ "panos/optimized_natural/" ++ replaceFirst target.image ".jpg" "" ++ "_std.jpg")
        ∈ links.foldl (connectedImagesStep dataM bp origin) acc
      ∧ (origin ++ bp ++ "panos/optimized_natural/" ++ replaceFirst target.image ".jpg" "" ++ "_mobile.jpg")
        ∈ links.foldl (connectedImagesStep dataM bp origin) acc
      ∧ (origin ++ bp ++ "panos/optimized_natural/" ++ replaceFirst target.image ".jpg" "" ++ ".jpg")
        ∈ links.foldl (connectedImagesStep dataM bp origin) acc := by
    intro links
    induction links with
    | nil => intro acc hmem; cases hmem
    | cons l rest ih =>
        intro acc hmem
        rcases List.mem_cons.mp hmem with heq | htail
        · subst heq
          obtain ⟨h1, h2, h3⟩ := connectedImagesStep_mem dataM bp origin acc link target h
          exact ⟨foldl_connectedImagesStep_mem_mono dataM bp origin rest _ _ h1,
                 foldl_connectedImagesStep_mem_mono dataM bp origin rest _ _ h2,
                 foldl_connectedImagesStep_mem_mono dataM bp origin rest _ _ h3⟩
        · exact ih _ htail
  exact main info.links [] hl

theorem connectedImagesStep_mem_cases (dataM : List (String × PanoramaData))
    (bp origin : String) (acc : List String) (link : PanoramaLink) (u : String)
    (h : u ∈ connectedImagesStep dataM bp origin acc link) :
    u ∈ acc ∨ strIsPrefix origin u = true := by
  unfold connectedImagesStep at h
  cases hg : mapGet dataM link.«to» with
  | none => rw [hg] at h; exact Or.inl h
  | some target =>
      rw [hg] at h
      simp only [List.mem_append, List.mem_cons, List.not_mem_nil, or_false] at h
      rcases h with h | h | h | h
      · exact Or.inl h
      all_goals subst h
      all_goals exact Or.inr (strIsPrefix_append4 _ _ _ _ _)

theorem connectedImages_origin_prefix (dataM : List (String × PanoramaData))
    (bp origin : String) (info : PanoramaData) (u : String)
    (h : u ∈ connectedImages dataM bp origin info) : strIsPrefix origin u = true := by
  unfold connectedImages at h
  have main : ∀ (links : List PanoramaLink) (acc : List String),
      (∀ x ∈ acc, strIsPrefix origin x = true) →
      ∀ x ∈ links.foldl (connectedImagesStep dataM bp origin) acc,
        strIsPrefix origin x = true := by
    intro links
    induction links with
    | nil => intro acc hacc x hx; exact hacc x hx
    | cons l rest ih =>
        intro acc hacc x hx
        refine ih _ ?_ x hx
        intro y hy
        rcases connectedImagesStep_mem_cases dataM bp origin acc l y hy with hin | hpre
        · exact hacc y hin
        · exact hpre
  exact main info.links [] (by intro x hx; cases hx) u h

theorem preloadImagesSeq_fetch_fresh (fetch : String → Option (List Nat))
    (hf : ∀ u, fetch u ≠ none) (basePath : String) :
    ∀ (urls : List String) (cache : List (String × List Nat)),
      (preloadImagesSeq fetch basePath cache urls).2.Nodup
      ∧ ∀ u ∈ (preloadImagesSeq fetch basePath cache urls).2, mapHas cache u = false := by
  intro urls
  induction urls with
  | nil =>
      intro cache
      simp [preloadImagesSeq]
  | cons v rest ih =>
      intro cache
      by_cases hv : mapHas cache (basePath ++ v) = true
      · rw [preloadImagesSeq, if_pos hv]
        exact ih cache
      · rw [Bool.not_eq_true] at hv
        rw [preloadImagesSeq, if_neg (by simp [hv])]
        cases hfv : fetch (basePath ++ v) with
        | none => exact absurd hfv (hf _)
        | some buf =>
            simp only [hfv]
            obtain ⟨hnodup, hfresh⟩ := ih (mapSet cache (basePath ++ v) buf)
            refine ⟨List.nodup_cons.mpr ⟨?_, hnodup⟩, ?_⟩
            · intro hmem
              have := hfresh _ hmem
              rw [mapHas_mapSet_self] at this
              exact Bool.true_eq_false.mp this
            · intro u hu
              rcases List.mem_cons.mp hu with heq | htail
              · subst heq; exact hv
              · have hc := hfresh u htail
                by_cases hcu : mapHas cache u = true
                · have := mapHas_mapSet_of cache (basePath ++ v) u buf hcu
                  rw [hc] at this
                  exact absurd this (by simp)
                · simpa using hcu

/-!
Claim theorems.
-/

/-- Claim C1, counterexample: the claim says the resident-entry count never
exceeds the configured capacity of 8, but the preloader has no capacity or
eviction logic at all — after nine successful preload messages for distinct
URLs, nine entries are resident. -/
theorem c1_capacity_counterexample :
    (nineMsgs.foldl handleWorkerMessage initPreloader).preloadedImages.length = 9
    ∧ 8 < (nineMsgs.foldl handleWorkerMessage initPreloader).preloadedImages.length := by
  decide

/-- Claim C1, amended: the preloader never evicts — handling any worker
message preserves every resident entry, so the resident count is unbounded
(it can exceed 8, as the counterexample shows) and no pinned-entry
mechanism exists. -/
theorem c1_no_eviction (p : PanoramaPreloader) (m : PreloadResponse) (u : String)
    (h : isImagePreloaded p u = true) :
    isImagePreloaded (handleWorkerMessage p m) u = true := by
  unfold handleWorkerMessage
  rcases m with ⟨ty, iu, idat, er, pr, tot⟩
  cases ty <;> try exact h
  rcases iu with _ | v
  · exact h
  rcases idat with _ | d
  · exact h
  dsimp
  by_cases hv : v = ""
  · simp [hv]; exact h
  · simp only [hv, if_false]
    exact mapHas_mapSet_of _ _ _ _ h

/-- Claim C1, witness for the amended theorem: a preloader holding key `k1`
still holds it after a further message is handled. -/
theorem c1_no_eviction_witness :
    isImagePreloaded oneEntryPreloader "k1" = true
    ∧ isImagePreloaded (handleWorkerMessage oneEntryPreloader (progressMsg "a2")) "k1" = true :=
  ⟨by decide, c1_no_eviction oneEntryPreloader (progressMsg "a2") "k1" (by decide)⟩

/-- Claim C2, counterexample: the claim says that after two rapid calls
`navigateTo('B')` then `navigateTo('C')` from node A the second call is
rejected and `CurrentNodeId` ends at B.  `navigateToPanorama` has no
transition lock and no rejection path: both calls run, and the current node
ends at C. -/
theorem c2_rapid_navigation_counterexample :
    (navigateToPanorama (navigateToPanorama viewerA "B" true) "C" true).currentPanorama = "C"
    ∧ (navigateToPanorama (navigateToPanorama viewerA "B" true) "C" true).currentPanorama ≠ "B" := by
  decide

/-- Claim C2, amended: `navigateToPanorama` performs no same-target check
and holds no lock — its whole body delegates to `loadPanorama`, so any call
whose target exists (and whose dome construction succeeds) proceeds and
leaves `currentPanorama` at that target; a later call wins over an earlier
one, and a same-target call re-runs the full load rather than being a
no-op. -/
theorem c2_navigation_no_lock (s : ViewerState) (t : String) (info : PanoramaData)
    (h : mapGet s.panoramaData t = some info) :
    navigateToPanorama s t true = loadPanorama s t true
    ∧ (navigateToPanorama s t true).currentPanorama = t := by
  refine ⟨rfl, ?_⟩
  unfold navigateToPanorama loadPanorama loadPanoramaRun
  rw [h]
  exact (preloadConnectedPanoramas_fields _ t).1

/-- Claim C2, witness for the amended theorem at node B of the ABC graph. -/
theorem c2_navigation_no_lock_witness :
    mapGet viewerA.panoramaData "B" = some infoB
    ∧ (navigateToPanorama viewerA "B" true = loadPanorama viewerA "B" true
       ∧ (navigateToPanorama viewerA "B" true).currentPanorama = "B") :=
  ⟨by decide, c2_navigation_no_lock viewerA "B" infoB (by decide)⟩

/-- Claim C3, counterexample: the claim says `CurrentNodeId` is updated only
strictly after the crossfade's final frame.  The effect trace of a
successful `loadPanorama` call contains the current-node update but no
crossfade at all — and its first event disposes the dome still on screen,
before the new one exists. -/
theorem c3_no_crossfade_counterexample :
    NavEvent.setCurrentEv "B" ∈ (loadPanoramaRun viewerA "B" true).2
    ∧ NavEvent.crossfadeEv ∉ (loadPanoramaRun viewerA "B" true).2
    ∧ (loadPanoramaRun viewerA "B" true).2.head? = some NavEvent.clearSceneEv := by
  decide

/-- Claim C3, amended: `loadPanorama` is synchronous and has no crossfade:
on a successful load its effect trace is exactly dispose-old-scene, create
new dome, set `currentPanorama`, create hotspots, request neighbour
preload — the current-node update happens in the same synchronous body as
dome creation, and no crossfade event exists; there is also no cache
pin/unpin. -/
theorem c3_synchronous_update (s : ViewerState) (panoramaId : String) (info : PanoramaData)
    (h : mapGet s.panoramaData panoramaId = some info) :
    (loadPanoramaRun s panoramaId true).2 =
      [NavEvent.clearSceneEv,
       NavEvent.createDomeEv
         ((getPreloadedImage s.preloader
             (loadImagePath s.basePath info.image (imageSuffix s.isMobile s.isVRActive))).getD
           (loadImagePath s.basePath info.image (imageSuffix s.isMobile s.isVRActive))),
       NavEvent.setCurrentEv panoramaId,
       NavEvent.createHotspotsEv info.links.length,
       NavEvent.preloadConnectedEv (connectedImages s.panoramaData s.basePath s.origin info)]
    ∧ NavEvent.crossfadeEv ∉ (loadPanoramaRun s panoramaId true).2
    ∧ (loadPanorama s panoramaId true).currentPanorama = panoramaId := by
  unfold loadPanorama loadPanoramaRun
  rw [h]
  refine ⟨rfl, ?_, (preloadConnectedPanoramas_fields _ panoramaId).1⟩
  simp

/-- Claim C3, witness for the amended theorem at node B of the ABC graph. -/
theorem c3_synchronous_update_witness :
    mapGet viewerA.panoramaData "B" = some infoB
    ∧ ((loadPanoramaRun viewerA "B" true).2 =
        [NavEvent.clearSceneEv,
         NavEvent.createDomeEv
           ((getPreloadedImage viewerA.preloader
               (loadImagePath viewerA.basePath infoB.image
                 (imageSuffix viewerA.isMobile viewerA.isVRActive))).getD
             (loadImagePath viewerA.basePath infoB.image
               (imageSuffix viewerA.isMobile viewerA.isVRActive))),
         NavEvent.setCurrentEv "B",
         NavEvent.createHotspotsEv infoB.links.length,
         NavEvent.preloadConnectedEv
           (connectedImages viewerA.panoramaData viewerA.basePath viewerA.origin infoB)]
      ∧ NavEvent.crossfadeEv ∉ (loadPanoramaRun viewerA "B" true).2
      ∧ (loadPanorama viewerA "B" true).currentPanorama = "B") :=
  ⟨by decide, c3_synchronous_update viewerA "B" infoB (by decide)⟩

/-- Claim C4, counterexample: the claim says that when the load for the
target fails, a fallback resource is shown and `CurrentNodeId` equals the
target afterwards.  When dome construction fails, the `catch` only logs:
the scene stays cleared (no dome at all, not a fallback) and
`currentPanorama` keeps its old value. -/
theorem c4_no_fallback_counterexample :
    (loadPanorama viewerA "B" false).currentPanorama = "A"
    ∧ (loadPanorama viewerA "B" false).currentPanorama ≠ "B"
    ∧ (loadPanorama viewerA "B" false).currentPhotoDome = none := by
  decide

/-- Claim C4, amended: on load failure `loadPanorama` catches the error and
only logs it — no fallback resource is constructed, the scene is left
cleared (no dome, no hotspots), and `currentPanorama` keeps its previous
value instead of becoming the target; there is no transition lock to
release. -/
theorem c4_failure_leaves_scene_cleared (s : ViewerState) (panoramaId : String)
    (info : PanoramaData) (h : mapGet s.panoramaData panoramaId = some info) :
    (loadPanorama s panoramaId false).currentPanorama = s.currentPanorama
    ∧ (loadPanorama s panoramaId false).currentPhotoDome = none
    ∧ (loadPanorama s panoramaId false).hotspots = [] := by
  unfold loadPanorama loadPanoramaRun
  rw [h]
  exact ⟨rfl, rfl, rfl⟩

/-- Claim C4, witness for the amended theorem at node B of the ABC graph. -/
theorem c4_failure_leaves_scene_cleared_witness :
    mapGet viewerA.panoramaData "B" = some infoB
    ∧ ((loadPanorama viewerA "B" false).currentPanorama = viewerA.currentPanorama
       ∧ (loadPanorama viewerA "B" false).currentPhotoDome = none
       ∧ (loadPanorama viewerA "B" false).hotspots = []) :=
  ⟨by decide, c4_failure_leaves_scene_cleared viewerA "B" infoB (by decide)⟩

/-- Claim C5, counterexample: the claim says concurrent requests for the
same key attach to one pending load, so exactly one fetch is started.  The
worker has no in-flight token — with two `PRELOAD_IMAGES` activations both
wanting `u.jpg`, each one's cache check misses before either fetch
resolves, and two fetches for the same key are started (both tasks end up
suspended on the same key). -/
theorem c5_duplicate_fetch_counterexample :
    WStep wsBoth wsOne ∧ WStep wsOne wsTwo ∧ wsTwo.fetchLog.count "u.jpg" = 2 := by
  refine ⟨?_, ?_, by decide⟩
  · exact WStep.startFetch wsBoth []
      [{ basePath := "", remaining := ["u.jpg"], pending := none }] "" "u.jpg" [] rfl rfl
  · exact WStep.startFetch wsOne
      [{ basePath := "", remaining := [], pending := some "u.jpg" }] [] "" "u.jpg" [] rfl rfl

/-- Claim C5, amended: deduplication exists only through the completed-fetch
cache, not an in-flight token: a single `preloadImages` batch processed in
isolation (with all fetches succeeding) starts at most one fetch per URL —
the fetch log has no duplicates and only contains URLs that were not yet
cached — but concurrently processed batches can each fetch the same key, as
the counterexample shows. -/
theorem c5_sequential_batch_dedup (fetch : String → Option (List Nat))
    (hf : ∀ u, fetch u ≠ none) (basePath : String)
    (cache : List (String × List Nat)) (urls : List String) :
    (preloadImagesSeq fetch basePath cache urls).2.Nodup
    ∧ ∀ u ∈ (preloadImagesSeq fetch basePath cache urls).2, mapHas cache u = false :=
  preloadImagesSeq_fetch_fresh fetch hf basePath urls cache

/-- Claim C5, witness for the amended theorem: a batch repeating `a.jpg`
fetches it only once. -/
theorem c5_sequential_batch_dedup_witness :
    (∀ u, fetchOk u ≠ none)
    ∧ ((preloadImagesSeq fetchOk "" [] ["a.jpg", "b.jpg", "a.jpg"]).2.Nodup
       ∧ ∀ u ∈ (preloadImagesSeq fetchOk "" [] ["a.jpg", "b.jpg", "a.jpg"]).2,
           mapHas ([] : List (String × List Nat)) u = false) :=
  ⟨fun u => by simp [fetchOk],
   c5_sequential_batch_dedup fetchOk (fun u => by simp [fetchOk]) "" []
     ["a.jpg", "b.jpg", "a.jpg"]⟩

/-- Claim C6, counterexample: the claim says every resident node that is
neither the current node nor one of its neighbours is evicted after a
transition, and that neighbours are prefetched at standard quality.  At
node B (neighbour C), the resident key `zzz` is still resident after
`preloadConnectedPanoramas`, and the request list also contains the
`_mobile.jpg` tier, not just the standard one. -/
theorem c6_no_eviction_counterexample :
    isImagePreloaded (preloadConnectedPanoramas viewerB "B").preloader "zzz" = true
    ∧ "https://ex/panos/optimized_natural/c_mobile.jpg"
        ∈ connectedImages viewerB.panoramaData viewerB.basePath viewerB.origin infoB := by
  decide

/-- Claim C6, amended: after a load, the engine requests background
preloading of the standard, mobile and original-resolution images of every
neighbour whose target exists (the worker later skips already-fetched
URLs); nothing is ever evicted — the preloader's resident set is untouched
by the prefetch request, so non-neighbour entries remain resident. -/
theorem c6_prefetch_three_tiers_no_eviction (s : ViewerState) (panoramaId : String)
    (info : PanoramaData) (h : mapGet s.panoramaData panoramaId = some info)
    (hne : connectedImages s.panoramaData s.basePath s.origin info ≠ []) :
    (preloadConnectedPanoramas s panoramaId).preloadRequests
      = s.preloadRequests ++ [(connectedImages s.panoramaData s.basePath s.origin info, "")]
    ∧ (∀ u, isImagePreloaded (preloadConnectedPanoramas s panoramaId).preloader u
          = isImagePreloaded s.preloader u)
    ∧ (∀ link ∈ info.links, ∀ target, mapGet s.panoramaData link.«to» = some target →
        (s.origin ++ s.basePath ++ "panos/optimized_natural/"
            ++ replaceFirst target.image ".jpg" "" ++ "_std.jpg")
          ∈ connectedImages s.panoramaData s.basePath s.origin info
        ∧ (s.origin ++ s.basePath ++ "panos/optimized_natural/"
            ++ replaceFirst target.image ".jpg" "" ++ "_mobile.jpg")
          ∈ connectedImages s.panoramaData s.basePath s.origin info
        ∧ (s.origin ++ s.basePath ++ "panos/optimized_natural/"
            ++ replaceFirst target.image ".jpg" "" ++ ".jpg")
          ∈ connectedImages s.panoramaData s.basePath s.origin info) := by
  refine ⟨?_, ?_, ?_⟩
  · unfold preloadConnectedPanoramas
    rw [h]
    have hlen : 0 < (connectedImages s.panoramaData s.basePath s.origin info).length :=
      List.length_pos.mpr hne
    simp [hlen]
  · intro u
    rw [(preloadConnectedPanoramas_fields s panoramaId).2.2.1]
  · intro link hl target ht
    exact connectedImages_mem_of_link s.panoramaData s.basePath s.origin info link hl target ht

/-- Claim C6, witness for the amended theorem at node B of the ABC graph. -/
theorem c6_prefetch_three_tiers_no_eviction_witness :
    mapGet viewerB.panoramaData "B" = some infoB
    ∧ connectedImages viewerB.panoramaData viewerB.basePath viewerB.origin infoB ≠ []
    ∧ ((preloadConnectedPanoramas viewerB "B").preloadRequests
        = viewerB.preloadRequests
          ++ [(connectedImages viewerB.panoramaData viewerB.basePath viewerB.origin infoB, "")]
       ∧ (∀ u, isImagePreloaded (preloadConnectedPanoramas viewerB "B").preloader u
            = isImagePreloaded viewerB.preloader u)
       ∧ (∀ link ∈ infoB.links, ∀ target, mapGet viewerB.panoramaData link.«to» = some target →
          (viewerB.origin ++ viewerB.basePath ++ "panos/optimized_natural/"
              ++ replaceFirst target.image ".jpg" "" ++ "_std.jpg")
            ∈ connectedImages viewerB.panoramaData viewerB.basePath viewerB.origin infoB
          ∧ (viewerB.origin ++ viewerB.basePath ++ "panos/optimized_natural/"
              ++ replaceFirst target.image ".jpg" "" ++ "_mobile.jpg")
            ∈ connectedImages viewerB.panoramaData viewerB.basePath viewerB.origin infoB
          ∧ (viewerB.origin ++ viewerB.basePath ++ "panos/optimized_natural/"
              ++ replaceFirst target.image ".jpg" "" ++ ".jpg")
            ∈ connectedImages viewerB.panoramaData viewerB.basePath viewerB.origin infoB)) :=
  ⟨by decide, by decide,
   c6_prefetch_three_tiers_no_eviction viewerB "B" infoB (by decide) (by decide)⟩

/-- Claim C7: `onEnterVR` is not idempotent.  Invoking it twice from a fresh
VR session does not produce the same end state as invoking it once —
`setupVRCaption` unconditionally creates a new caption plane and registers a
new render observer without disposing the previous ones (unlike its sibling
`updateVRCaption`, which calls `disposeVRCaption` first), and
`setupFloorplanUI` likewise duplicates the floorplan plane, even though the
per-frame corrective check re-invokes `onEnterVR` assuming re-running it is
safe. -/
theorem c7_onEnterVR_not_idempotent :
    onEnterVR (onEnterVR vrFresh) ≠ onEnterVR vrFresh
    ∧ (onEnterVR (onEnterVR vrFresh)).captionPlanes = 2
    ∧ (onEnterVR vrFresh).captionPlanes = 1 := by
  decide

/-- Claim C8: navigating to a target identifier absent from the node graph
is a total no-op — `loadPanorama` checks the graph before touching anything,
logs, and returns, so the whole viewer state (current node, dome, hotspots)
is unchanged and nothing is thrown (the model is a total function). -/
theorem c8_dangling_target_noop (s : ViewerState) (panoramaId : String)
    (h : mapGet s.panoramaData panoramaId = none) (domeOk : Bool) :
    navigateToPanorama s panoramaId domeOk = s ∧ loadPanorama s panoramaId domeOk = s := by
  unfold navigateToPanorama loadPanorama loadPanoramaRun
  rw [h]
  exact ⟨rfl, rfl⟩

/-- Claim C8, witness: navigating to the missing id `Zed` leaves the viewer
untouched. -/
theorem c8_dangling_target_noop_witness :
    mapGet viewerA.panoramaData "Zed" = none
    ∧ (navigateToPanorama viewerA "Zed" true = viewerA
       ∧ loadPanorama viewerA "Zed" true = viewerA) :=
  ⟨by decide, c8_dangling_target_noop viewerA "Zed" (by decide) true⟩

/-- Claim C9, counterexample: the claim says that whenever
`window.location.origin` is a non-empty string, no stored prefetch key can
equal a path queried by `loadPanorama`.  Non-emptiness alone is not enough:
with origin `panos/optimized_natural/x/`, an empty base path and an image
name that embeds the path segment, a stored `_std.jpg` key is literally
equal to the queried path, and the lookup then returns a non-null object
URL. -/
theorem c9_origin_nonempty_counterexample :
    ("panos/optimized_natural/x/" : String) ≠ ""
    ∧ loadImagePath "" infoCollide.image (imageSuffix false false)
        ∈ connectedImages dataCollide "" "panos/optimized_natural/x/" infoCollide
    ∧ getPreloadedImage
        (handleWorkerMessage initPreloader
          (progressMsg "panos/optimized_natural/x/panos/optimized_natural/img_std.jpg"))
        (loadImagePath "" infoCollide.image (imageSuffix false false)) ≠ none := by
  decide

/-- Claim C9, amended: the disjointness holds under the hypothesis the
counterexample forces — that the origin is not a *prefix* of the queried
path (true in real deployments, where the origin is `scheme://host` and the
queried path begins with the base path): every URL stored by the
neighbour-prefetch path begins with the origin, so when the preloader holds
only such keys the query misses, `getPreloadedImage` returns null, and the
dome is created from the network path. -/
theorem c9_prefix_mismatch_lookup_null (s : ViewerState) (panoramaId : String)
    (info : PanoramaData) (h : mapGet s.panoramaData panoramaId = some info)
    (hpre : ∀ k, isImagePreloaded s.preloader k = true → strIsPrefix s.origin k = true)
    (hq : strIsPrefix s.origin
        (loadImagePath s.basePath info.image (imageSuffix s.isMobile s.isVRActive)) = false) :
    (∀ u ∈ connectedImages s.panoramaData s.basePath s.origin info,
        strIsPrefix s.origin u = true)
    ∧ getPreloadedImage s.preloader
        (loadImagePath s.basePath info.image (imageSuffix s.isMobile s.isVRActive)) = none
    ∧ (loadPanorama s panoramaId true).currentPhotoDome = some
        { name := "dome_" ++ panoramaId,
          sourceUrl := loadImagePath s.basePath info.image (imageSuffix s.isMobile s.isVRActive),
          resolution := if s.isVRActive then 128 else 64 } := by
  have hnone : getPreloadedImage s.preloader
      (loadImagePath s.basePath info.image (imageSuffix s.isMobile s.isVRActive)) = none := by
    set q := loadImagePath s.basePath info.image (imageSuffix s.isMobile s.isVRActive) with hqdef
    cases hg : mapGet s.preloader.preloadedImages q with
    | none => unfold getPreloadedImage; rw [hg]
    | some img =>
        have hhas : isImagePreloaded s.preloader q = true := by
          simp [isImagePreloaded, mapHas, hg]
        have hpq := hpre q hhas
        rw [hq] at hpq
        exact absurd hpq (by simp)
  refine ⟨fun u hu => connectedImages_origin_prefix _ _ _ _ u hu, hnone, ?_⟩
  have hdome := (preloadConnectedPanoramas_fields
    ({ (clearScene s) with
        currentPhotoDome := some
          { name := "dome_" ++ panoramaId,
            sourceUrl := (getPreloadedImage s.preloader
              (loadImagePath s.basePath info.image (imageSuffix s.isMobile s.isVRActive))).getD
              (loadImagePath s.basePath info.image (imageSuffix s.isMobile s.isVRActive)),
            resolution := if s.isVRActive then 128 else 64 },
        currentPanorama := panoramaId,
        hotspots := createHotspots info.links }) panoramaId).2.1
  unfold loadPanorama loadPanoramaRun
  rw [h]
  dsimp
  rw [hdome]
  simp [hnone]

/-- Claim C9, witness for the amended theorem: an empty preloader and a real
origin at node B of the ABC graph. -/
theorem c9_prefix_mismatch_lookup_null_witness :
    mapGet viewerA.panoramaData "B" = some infoB
    ∧ (∀ k, isImagePreloaded viewerA.preloader k = true → strIsPrefix viewerA.origin k = true)
    ∧ strIsPrefix viewerA.origin
        (loadImagePath viewerA.basePath infoB.image
          (imageSuffix viewerA.isMobile viewerA.isVRActive)) = false
    ∧ ((∀ u ∈ connectedImages viewerA.panoramaData viewerA.basePath viewerA.origin infoB,
          strIsPrefix viewerA.origin u = true)
       ∧ getPreloadedImage viewerA.preloader
           (loadImagePath viewerA.basePath infoB.image
             (imageSuffix viewerA.isMobile viewerA.isVRActive)) = none
       ∧ (loadPanorama viewerA "B" true).currentPhotoDome = some
           { name := "dome_" ++ "B",
             sourceUrl := loadImagePath viewerA.basePath infoB.image
               (imageSuffix viewerA.isMobile viewerA.isVRActive),
             resolution := if viewerA.isVRActive then 128 else 64 }) :=
  ⟨by decide,
   fun k hk => by simp [viewerA, initPreloader, isImagePreloaded, mapHas, mapGet] at hk,
   by decide,
   c9_prefix_mismatch_lookup_null viewerA "B" infoB (by decide)
     (fun k hk => by simp [viewerA, initPreloader, isImagePreloaded, mapHas, mapGet] at hk)
     (by decide)⟩

/-- Claim C10: for every sequence of worker messages and every URL, the
preloader built from them answers consistently — `getPreloadedImage`
returns a non-null object URL exactly when `isImagePreloaded` returns true,
because every inserted entry carries a (non-empty) object URL. -/
theorem c10_lookup_consistency (msgs : List PreloadResponse) (u : String) :
    (getPreloadedImage (msgs.foldl handleWorkerMessage initPreloader) u ≠ none)
    ↔ isImagePreloaded (msgs.foldl handleWorkerMessage initPreloader) u = true :=
  getPreloadedImage_isSome_of_wellFormed _
    (foldl_handleWorkerMessage_wellFormed msgs initPreloader initPreloader_wellFormed) u

end VRTour
